import Mathlib

/-!
Shallow embedding of the access-control, workflow and notification logic of
the digital mentorship-log backend (`backend/app`): the enums and rows of
`models.py`, the permission helpers of `dependencies.py`, and the handler
bodies of `routers/mentorship_logs.py`, `routers/comments.py`,
`routers/notifications.py` and `routers/follow_ups.py`.

Conventions of the embedding:
* UUID primary keys become `Nat`; timestamps become `Nat` (an abstract clock
  value passed in as `now`); dates become `Nat`.
* The relational store is a `DB` structure of lists of rows; ORM queries
  become list `filter` / `find?` / `any` over those lists.  `DB.nextId` is
  the id allocator standing in for `uuid4` defaults.
* A raised `HTTPException(status_code, detail)` becomes
  `Except.error (ApiError.mk status_code detail)`.  Every handler raises
  before mutating the store, so an `error` result means the store is
  unchanged; handlers that mutate return the new `DB` inside `Except.ok`.
* The free-form form fields of a mentorship log (observations, challenges,
  activities, ...) are never read by the logic under proof; they are
  collapsed into one opaque `payload : String` field.  `thematic_areas`,
  `status` and the workflow timestamps, which the logic does read, are kept
  as real fields.
* Python truthiness tests on strings (`not reason or not reason.strip()`)
  become `blank_string`: every character is whitespace.
-/

namespace DML

/-- `UserRole` from `models.py`. -/
inductive UserRole where
  | mentor
  | supervisor
  | admin
deriving DecidableEq, Repr

/-- `LogStatus` from `models.py` (the `completed` variant is declared but no
transition reaches it). -/
inductive LogStatus where
  | draft
  | submitted
  | approved
  | completed
deriving DecidableEq, Repr

/-- `.value` of the status enum, used in error detail strings. -/
def LogStatus.value : LogStatus → String
  | .draft => "draft"
  | .submitted => "submitted"
  | .approved => "approved"
  | .completed => "completed"

/-- `FollowUpStatus` from `models.py`. -/
inductive FollowUpStatus where
  | pending
  | in_progress
  | completed
deriving DecidableEq, Repr

/-- `NotificationType` from `models.py`. -/
inductive NotificationType where
  | specialist_log
  | comment
  | approval
  | rejection
deriving DecidableEq, Repr

/-- A `users` row (`models.User`): role, optional supervisor reference,
active flag.  Credentials are outside the modelled logic. -/
structure User where
  id : Nat
  name : String
  role : UserRole
  supervisor_id : Option Nat
  is_active : Bool
deriving DecidableEq, Repr

/-- A `facilities` row (`models.Facility`); only the name is read (for
notification display text). -/
structure Facility where
  id : Nat
  name : String
deriving DecidableEq, Repr

/-- A `mentorship_logs` row (`models.MentorshipLog`).  `payload` stands for
the free-form form fields the core logic never reads. -/
structure MentorshipLog where
  id : Nat
  facility_id : Nat
  mentor_id : Nat
  status : LogStatus
  visit_date : Nat
  thematic_areas : List String
  payload : String
  submitted_at : Option Nat
  approved_at : Option Nat
  approved_by : Option Nat
  rejected_at : Option Nat
  rejection_reason : Option String
deriving DecidableEq, Repr

/-- A `skills_transfers` row; all columns except the log reference are
opaque to the logic under proof and collapse into `payload`. -/
structure SkillsTransfer where
  id : Nat
  mentorship_log_id : Nat
  payload : String
deriving DecidableEq, Repr

/-- A `follow_ups` row (`models.FollowUp`). -/
structure FollowUp where
  id : Nat
  mentorship_log_id : Nat
  action_item : String
  responsible_person : Option String
  assigned_to : Option Nat
  target_date : Option Nat
  resources_needed : Option String
  priority : Option String
  notes : Option String
  status : FollowUpStatus
  completed_at : Option Nat
deriving DecidableEq, Repr

/-- An `attachments` row; file metadata is opaque. -/
structure Attachment where
  id : Nat
  mentorship_log_id : Nat
  file_path : String
deriving DecidableEq, Repr

/-- A `log_comments` row (`models.LogComment`). -/
structure LogComment where
  id : Nat
  mentorship_log_id : Nat
  user_id : Nat
  comment_text : String
  is_specialist_comment : Bool
  created_at : Nat
deriving DecidableEq, Repr

/-- A `user_specializations` row (`models.UserSpecialization`): a
(user, thematic_area) fact. -/
structure UserSpecialization where
  user_id : Nat
  thematic_area : String
deriving DecidableEq, Repr

/-- A `specialist_notifications` row; the table carries the unique
constraint on (mentorship_log_id, specialist_id, thematic_area). -/
structure SpecialistNotification where
  id : Nat
  mentorship_log_id : Nat
  specialist_id : Nat
  thematic_area : String
  is_read : Bool
  notified_at : Nat
  read_at : Option Nat
deriving DecidableEq, Repr

/-- A `notifications` row (`models.Notification`), the unified shape used
for approval/rejection/comment events. -/
structure Notification where
  id : Nat
  user_id : Nat
  notification_type : NotificationType
  title : String
  message : String
  related_log_id : Option Nat
  is_read : Bool
  created_at : Nat
  read_at : Option Nat
deriving DecidableEq, Repr

/-- The relational store: one list of rows per table, plus the id
allocator standing in for `uuid4` column defaults. -/
structure DB where
  users : List User
  facilities : List Facility
  logs : List MentorshipLog
  skillsTransfers : List SkillsTransfer
  followUps : List FollowUp
  attachments : List Attachment
  logComments : List LogComment
  userSpecializations : List UserSpecialization
  specialistNotifs : List SpecialistNotification
  notifications : List Notification
  nextId : Nat
deriving DecidableEq, Repr

/-- An `HTTPException`: status code and detail string. -/
structure ApiError where
  code : Nat
  detail : String
deriving DecidableEq, Repr

instance {ε α : Type} [DecidableEq ε] [DecidableEq α] : DecidableEq (Except ε α)
  | .ok x, .ok y => decidable_of_iff (x = y) (by simp)
  | .ok _, .error _ => .isFalse (by simp)
  | .error _, .ok _ => .isFalse (by simp)
  | .error e, .error f => decidable_of_iff (e = f) (by simp)

/-- `db.query(MentorshipLog).filter(MentorshipLog.id == log_id).first()`. -/
def find_log (db : DB) (log_id : Nat) : Option MentorshipLog :=
  db.logs.find? (fun l => decide (l.id = log_id))

/-- `db.query(User).filter(User.id == uid).first()`. -/
def find_user (db : DB) (uid : Nat) : Option User :=
  db.users.find? (fun u => decide (u.id = uid))

/-- The thematic areas of a user's `UserSpecialization` rows
(`db.query(UserSpecialization).filter(user_id == uid)` then projecting
`thematic_area`). -/
def user_spec_areas (db : DB) (uid : Nat) : List String :=
  (db.userSpecializations.filter (fun p => decide (p.user_id = uid))).map
    (fun p => p.thematic_area)

/-- `log.facility.name if log.facility else "a facility"`, used when
building notification display text. -/
def facility_display (db : DB) (facility_id : Nat) : String :=
  match db.facilities.find? (fun f => decide (f.id = facility_id)) with
  | some f => f.name
  | none => "a facility"

/-- Python `not s or not s.strip()`: the string is empty or consists only
of whitespace characters. -/
def blank_string (s : String) : Bool :=
  s.data.all (fun c => c.isWhitespace)

/-- `dependencies.can_approve_log`: admins always; supervisors only when
the log's mentor resolves and reports to them; mentors never. -/
def can_approve_log (log : MentorshipLog) (current_user : User) (db : DB) : Bool :=
  if current_user.role = UserRole.admin then
    true
  else if current_user.role = UserRole.supervisor then
    match find_user db log.mentor_id with
    | some mentor => decide (mentor.supervisor_id = some current_user.id)
    | none => false
  else false

/-- `dependencies.can_view_as_specialist`: the user's specialization areas
intersect the log's thematic areas (no status condition here; callers add
one where the source does). -/
def can_view_as_specialist (log : MentorshipLog) (user : User) (db : DB) : Bool :=
  if log.thematic_areas.isEmpty then
    false
  else
    let user_thematic_areas := user_spec_areas db user.id
    log.thematic_areas.any (fun a => user_thematic_areas.contains a)

/-- `dependencies.get_visible_logs_query`, as the membership predicate of
the query it builds: admin sees all; otherwise the OR of own logs,
(for supervisors) mentees' logs, and — when the user holds at least one
specialization — submitted/approved logs with overlapping thematic areas. -/
def get_visible_logs_query (current_user : User) (db : DB)
    (log : MentorshipLog) : Bool :=
  if current_user.role = UserRole.admin then
    true
  else
    let own := decide (log.mentor_id = current_user.id)
    let mentee := decide (current_user.role = UserRole.supervisor) &&
      db.users.any (fun m =>
        decide (m.id = log.mentor_id) && decide (m.supervisor_id = some current_user.id))
    let specialist_areas := user_spec_areas db current_user.id
    let specialist := !specialist_areas.isEmpty &&
      log.thematic_areas.any (fun a => specialist_areas.contains a) &&
      (decide (log.status = LogStatus.submitted) || decide (log.status = LogStatus.approved))
    own || mentee || specialist

/-! ## `routers/mentorship_logs.py` -/

/-- The nested follow-up payload (`schemas.FollowUpNested`). -/
structure FollowUpNested where
  action_item : String
  responsible_person : Option String
  assigned_to : Option Nat
  target_date : Option Nat
  resources_needed : Option String
  priority : Option String
  notes : Option String
deriving DecidableEq, Repr

/-- The nested skills-transfer payload (`schemas.SkillsTransferCreate`);
its columns are opaque to the logic under proof. -/
structure SkillsTransferCreate where
  payload : String
deriving DecidableEq, Repr

/-- `schemas.MentorshipLogCreate`.  The schema has no `status` and no
`mentor_id` field, so the caller cannot supply either. -/
structure MentorshipLogCreate where
  facility_id : Nat
  visit_date : Nat
  thematic_areas : List String
  payload : String
  skills_transfers : List SkillsTransferCreate
  follow_ups : List FollowUpNested
deriving DecidableEq, Repr

/-- `schemas.MentorshipLogUpdate`: every field optional; `none` models a
field absent from the request (pydantic `exclude_unset`). -/
structure MentorshipLogUpdate where
  facility_id : Option Nat
  visit_date : Option Nat
  thematic_areas : Option (List String)
  payload : Option String
  skills_transfers : Option (List SkillsTransferCreate)
  follow_ups : Option (List FollowUpNested)
deriving DecidableEq, Repr

/-- Build a `FollowUp` row from a nested payload (status defaults to
`pending`, `completed_at` unset). -/
def FollowUpNested.toRow (fu : FollowUpNested) (fid log_id : Nat) : FollowUp :=
  { id := fid, mentorship_log_id := log_id, action_item := fu.action_item,
    responsible_person := fu.responsible_person, assigned_to := fu.assigned_to,
    target_date := fu.target_date, resources_needed := fu.resources_needed,
    priority := fu.priority, notes := fu.notes,
    status := FollowUpStatus.pending, completed_at := none }

/-- Insert one `FollowUp` row per nested payload for the given log
(the `db.add(FollowUp(**fu_data, mentorship_log_id=log.id))` loop). -/
def insert_follow_ups (db : DB) (log_id : Nat) (fus : List FollowUpNested) : DB :=
  fus.foldl
    (fun d fu =>
      { d with followUps := d.followUps ++ [fu.toRow d.nextId log_id],
               nextId := d.nextId + 1 })
    db

/-- Insert one `SkillsTransfer` row per nested payload for the given log. -/
def insert_skills_transfers (db : DB) (log_id : Nat)
    (sts : List SkillsTransferCreate) : DB :=
  sts.foldl
    (fun d st =>
      { d with skillsTransfers :=
                 d.skillsTransfers ++
                   [{ id := d.nextId, mentorship_log_id := log_id,
                      payload := st.payload }],
               nextId := d.nextId + 1 })
    db

/-- `get_mentorship_log`: 404 when the id does not resolve; admins and
supervisors see every log; mentors their own; anyone else only
submitted/approved logs with a specialization overlap. -/
def get_mentorship_log (log_id : Nat) (current_user : User) (db : DB) :
    Except ApiError MentorshipLog :=
  match find_log db log_id with
  | none => .error ⟨404, "Mentorship log not found"⟩
  | some log =>
    if current_user.role = UserRole.admin ∨ current_user.role = UserRole.supervisor then
      .ok log
    else if current_user.role = UserRole.mentor ∧ log.mentor_id = current_user.id then
      .ok log
    else if (log.status = LogStatus.submitted ∨ log.status = LogStatus.approved)
            ∧ can_view_as_specialist log current_user db = true then
      .ok log
    else
      .error ⟨403, "You don\x27t have permission to view this log"⟩

/-- `create_mentorship_log`: any authenticated user; the new row always
gets `mentor_id = current_user.id` and `status = draft`, then the nested
skills transfers and follow-ups are inserted. -/
def create_mentorship_log (log_data : MentorshipLogCreate) (current_user : User)
    (db : DB) : DB × MentorshipLog :=
  let log : MentorshipLog :=
    { id := db.nextId, facility_id := log_data.facility_id,
      mentor_id := current_user.id, status := LogStatus.draft,
      visit_date := log_data.visit_date,
      thematic_areas := log_data.thematic_areas, payload := log_data.payload,
      submitted_at := none, approved_at := none, approved_by := none,
      rejected_at := none, rejection_reason := none }
  let db1 := { db with logs := db.logs ++ [log], nextId := db.nextId + 1 }
  let db2 := insert_skills_transfers db1 log.id log_data.skills_transfers
  let db3 := insert_follow_ups db2 log.id log_data.follow_ups
  (db3, log)

/-- Apply the scalar field updates of `MentorshipLogUpdate` to a log row
(the `setattr` loop over `model_dump(exclude_unset=True)`). -/
def apply_log_update (log : MentorshipLog) (u : MentorshipLogUpdate) : MentorshipLog :=
  { log with
    facility_id := u.facility_id.getD log.facility_id,
    visit_date := u.visit_date.getD log.visit_date,
    thematic_areas := u.thematic_areas.getD log.thematic_areas,
    payload := u.payload.getD log.payload }

/-- `update_mentorship_log`: only the owning mentor, only while draft;
nested lists, when present, delete-then-recreate the children
(full replace); when absent the children are untouched. -/
def update_mentorship_log (log_id : Nat) (log_data : MentorshipLogUpdate)
    (current_user : User) (db : DB) : Except ApiError (DB × MentorshipLog) :=
  match find_log db log_id with
  | none => .error ⟨404, "Mentorship log not found"⟩
  | some log =>
    if log.mentor_id ≠ current_user.id then
      .error ⟨403, "Only the log creator can edit their log. Supervisors should use comments and approve/reject actions."⟩
    else if log.status ≠ LogStatus.draft then
      .error ⟨400, "Cannot edit " ++ log.status.value ++ " logs. Only draft logs can be edited."⟩
    else
      let updated := apply_log_update log log_data
      let db1 := { db with logs := db.logs.map (fun l => if l.id = log.id then updated else l) }
      let db2 :=
        match log_data.skills_transfers with
        | none => db1
        | some sts =>
          insert_skills_transfers
            { db1 with skillsTransfers :=
                db1.skillsTransfers.filter (fun st => decide (st.mentorship_log_id ≠ log.id)) }
            log.id sts
      let db3 :=
        match log_data.follow_ups with
        | none => db2
        | some fus =>
          insert_follow_ups
            { db2 with followUps :=
                db2.followUps.filter (fun f => decide (f.mentorship_log_id ≠ log.id)) }
            log.id fus
      .ok (db3, updated)

/-! ### The submit fan-out and its session semantics

`submit_mentorship_log` mutates `log.status`/`submitted_at` on the ORM
object, then loops over (area, specialist) candidates doing
`db.add(SpecialistNotification(...)); db.flush()` inside
`try/except: db.rollback()`.  SQLAlchemy semantics embedded here:

* `flush` writes the pending status update (first time) and the new
  notification row into the open transaction;
* a uniqueness violation raises, and `session.rollback()` resets the WHOLE
  transaction to the last committed state — it is not a savepoint — also
  discarding the in-memory status modification and any notification rows
  flushed earlier in the same loop;
* the final `db.commit()` makes the surviving transaction state durable.
-/

/-- The state of the open session during the fan-out loop: the
transaction-visible store, and whether the status update is still pending
(dirty, not yet flushed). -/
structure FanoutState where
  txn : DB
  pendingUpd : Bool
deriving DecidableEq, Repr

/-- Does the store already hold a row for this
(mentorship_log_id, specialist_id, thematic_area) triple?  (The unique
constraint `uq_specialist_notification`.) -/
def has_notif_triple (db : DB) (log_id specialist_id : Nat) (area : String) : Bool :=
  db.specialistNotifs.any (fun n =>
    decide (n.mentorship_log_id = log_id) && decide (n.specialist_id = specialist_id) &&
      decide (n.thematic_area = area))

/-- The status transition to `submitted` applied to the stored row. -/
def apply_submit_update (db : DB) (log_id now : Nat) : DB :=
  { db with logs := db.logs.map (fun l =>
      if l.id = log_id then { l with status := LogStatus.submitted, submitted_at := some now }
      else l) }

/-- The specialists queried for one thematic area: active users other than
the submitter holding a `UserSpecialization` row for that area. -/
def specialists_for_area (db : DB) (current_user : User) (area : String) : List User :=
  db.users.filter (fun s =>
    s.is_active && decide (s.id ≠ current_user.id) &&
      db.userSpecializations.any (fun p =>
        decide (p.user_id = s.id) && decide (p.thematic_area = area)))

/-- The (specialist_id, area) candidates of the fan-out, in loop order:
areas in `log.thematic_areas` order, specialists in table order. -/
def fanout_candidates (db : DB) (current_user : User) (log : MentorshipLog) :
    List (Nat × String) :=
  log.thematic_areas.flatMap (fun area =>
    (specialists_for_area db current_user area).map (fun s => (s.id, area)))

/-- One iteration of the fan-out loop: try to flush the candidate's
notification row; on a uniqueness violation, `session.rollback()` resets
the transaction to `committed` and drops the pending status update. -/
def fanout_step (committed : DB) (log_id now : Nat) (st : FanoutState)
    (cand : Nat × String) : FanoutState :=
  if has_notif_triple st.txn log_id cand.1 cand.2 then
    { txn := committed, pendingUpd := false }
  else
    let t0 := if st.pendingUpd then apply_submit_update st.txn log_id now else st.txn
    { txn := { t0 with
        specialistNotifs := t0.specialistNotifs ++
          [{ id := t0.nextId, mentorship_log_id := log_id, specialist_id := cand.1,
             thematic_area := cand.2, is_read := false, notified_at := now,
             read_at := none }],
        nextId := t0.nextId + 1 },
      pendingUpd := false }

/-- `submit_mentorship_log`: mentors may submit only their own logs,
supervisors/admins any; only from `draft`; then the specialist fan-out runs
under the session semantics above and the session is committed.  The
returned log is the row re-read from the committed store (`db.refresh`). -/
def submit_mentorship_log (log_id : Nat) (current_user : User) (db : DB)
    (now : Nat) : Except ApiError (DB × MentorshipLog) :=
  match find_log db log_id with
  | none => .error ⟨404, "Mentorship log not found"⟩
  | some log =>
    if current_user.role = UserRole.mentor ∧ log.mentor_id ≠ current_user.id then
      .error ⟨403, "You can only submit your own logs"⟩
    else if log.status ≠ LogStatus.draft then
      .error ⟨400, "Cannot submit " ++ log.status.value ++ " log. Only draft logs can be submitted."⟩
    else
      let cands := fanout_candidates db current_user log
      let final := cands.foldl (fanout_step db log.id now) ⟨db, true⟩
      let committed :=
        if final.pendingUpd then apply_submit_update final.txn log.id now else final.txn
      .ok (committed, (find_log committed log_id).getD log)

/-- `approve_mentorship_log`: gated by `require_role(supervisor, admin)`,
then `can_approve_log`, then the status check; on success sets
`approved_at`/`approved_by`, and creates one approval notification to the
mentor unless the approver is the mentor. -/
def approve_mentorship_log (log_id : Nat) (current_user : User) (db : DB)
    (now : Nat) : Except ApiError (DB × MentorshipLog) :=
  if ¬(current_user.role = UserRole.supervisor ∨ current_user.role = UserRole.admin) then
    .error ⟨403, "Insufficient permissions. Required roles: [supervisor, admin]"⟩
  else
    match find_log db log_id with
    | none => .error ⟨404, "Mentorship log not found"⟩
    | some log =>
      if can_approve_log log current_user db ≠ true then
        .error ⟨403, "You can only approve logs from your assigned mentees"⟩
      else if log.status ≠ LogStatus.submitted then
        .error ⟨400, "Cannot approve " ++ log.status.value ++ " log. Only submitted logs can be approved."⟩
      else
        let updated := { log with status := LogStatus.approved,
                                  approved_at := some now,
                                  approved_by := some current_user.id }
        let db1 := { db with logs := db.logs.map (fun l => if l.id = log.id then updated else l) }
        let db2 :=
          if log.mentor_id ≠ current_user.id then
            { db1 with
              notifications := db1.notifications ++
                [{ id := db1.nextId, user_id := log.mentor_id,
                   notification_type := NotificationType.approval,
                   title := "Log Approved",
                   message := "Your mentorship log for " ++ facility_display db log.facility_id ++
                     " has been approved by " ++ current_user.name,
                   related_log_id := some log_id, is_read := false,
                   created_at := now, read_at := none }],
              nextId := db1.nextId + 1 }
          else db1
        .ok (db2, updated)

/-- `reject_mentorship_log`: gated by `require_role(supervisor, admin)`;
only from `submitted`; the reason must not be empty/whitespace; on success
returns the log to `draft`, records the rejection, clears `submitted_at`,
and notifies the mentor unless the rejecter is the mentor. -/
def reject_mentorship_log (log_id : Nat) (reason : String) (current_user : User)
    (db : DB) (now : Nat) : Except ApiError (DB × MentorshipLog) :=
  if ¬(current_user.role = UserRole.supervisor ∨ current_user.role = UserRole.admin) then
    .error ⟨403, "Insufficient permissions. Required roles: [supervisor, admin]"⟩
  else
    match find_log db log_id with
    | none => .error ⟨404, "Mentorship log not found"⟩
    | some log =>
      if log.status ≠ LogStatus.submitted then
        .error ⟨400, "Cannot reject " ++ log.status.value ++ " log. Only submitted logs can be rejected."⟩
      else if blank_string reason = true then
        .error ⟨400, "Rejection reason is required"⟩
      else
        let updated := { log with status := LogStatus.draft,
                                  rejected_at := some now,
                                  rejection_reason := some reason,
                                  submitted_at := none }
        let db1 := { db with logs := db.logs.map (fun l => if l.id = log.id then updated else l) }
        let db2 :=
          if log.mentor_id ≠ current_user.id then
            { db1 with
              notifications := db1.notifications ++
                [{ id := db1.nextId, user_id := log.mentor_id,
                   notification_type := NotificationType.rejection,
                   title := "Log Returned for Revision",
                   message := "Your mentorship log for " ++ facility_display db log.facility_id ++
                     " has been returned by " ++ current_user.name ++ ". Reason: " ++ reason,
                   related_log_id := some log_id, is_read := false,
                   created_at := now, read_at := none }],
              nextId := db1.nextId + 1 }
          else db1
        .ok (db2, updated)

/-- `delete_mentorship_log`: the handler checks `current_user.role ==
UserRole.mentor` only — a mentor must own the log and it must be draft;
any non-mentor role (admin OR supervisor) reaches the delete with no
further check.  Deletion cascades to skills transfers, follow-ups,
attachments and comments. -/
def delete_mentorship_log (log_id : Nat) (current_user : User) (db : DB) :
    Except ApiError DB :=
  match find_log db log_id with
  | none => .error ⟨404, "Mentorship log not found"⟩
  | some log =>
    if current_user.role = UserRole.mentor ∧ log.mentor_id ≠ current_user.id then
      .error ⟨403, "You can only delete your own logs"⟩
    else if current_user.role = UserRole.mentor ∧ log.status ≠ LogStatus.draft then
      .error ⟨400, "You can only delete draft logs"⟩
    else
      .ok { db with
        logs := db.logs.filter (fun l => decide (l.id ≠ log.id)),
        skillsTransfers := db.skillsTransfers.filter (fun st => decide (st.mentorship_log_id ≠ log.id)),
        followUps := db.followUps.filter (fun f => decide (f.mentorship_log_id ≠ log.id)),
        attachments := db.attachments.filter (fun a => decide (a.mentorship_log_id ≠ log.id)),
        logComments := db.logComments.filter (fun c => decide (c.mentorship_log_id ≠ log.id)) }

/-! ## `routers/comments.py` -/

/-- The shared access check of `get_log_comments` and `create_log_comment`:
returns (can_access, is_specialist).  The elif chain grants the owning
mentor, admins, and a supervisor only when the log's mentor resolves and
reports to them; then, if still denied, the specialist-overlap check (with
NO status condition) grants and flags specialist authorship. -/
def comment_access (log : MentorshipLog) (current_user : User) (db : DB) :
    Bool × Bool :=
  let base : Bool :=
    if log.mentor_id = current_user.id then
      true
    else if current_user.role = UserRole.admin then
      true
    else if current_user.role = UserRole.supervisor then
      match find_user db log.mentor_id with
      | some mentor => decide (mentor.supervisor_id = some current_user.id)
      | none => false
    else false
  if base then (true, false)
  else if can_view_as_specialist log current_user db then (true, true)
  else (false, false)

/-- `get_log_comments`: 404 when the log id does not resolve, 403 unless
`comment_access` grants; otherwise the log's comments (in store order;
the `created_at` ascending sort is not modelled). -/
def get_log_comments (log_id : Nat) (current_user : User) (db : DB) :
    Except ApiError (List LogComment) :=
  match find_log db log_id with
  | none => .error ⟨404, "Mentorship log not found"⟩
  | some log =>
    if (comment_access log current_user db).1 = true then
      .ok (db.logComments.filter (fun c => decide (c.mentorship_log_id = log_id)))
    else
      .error ⟨403, "You don\x27t have access to view comments on this log"⟩

/-- `create_log_comment`: same access check; the stored flag is
`is_specialist || comment_data.is_specialist_comment`. -/
def create_log_comment (log_id : Nat) (comment_text : String)
    (payload_is_specialist : Bool) (current_user : User) (db : DB) (now : Nat) :
    Except ApiError (DB × LogComment) :=
  match find_log db log_id with
  | none => .error ⟨404, "Mentorship log not found"⟩
  | some log =>
    let acc := comment_access log current_user db
    if acc.1 ≠ true then
      .error ⟨403, "You don\x27t have access to comment on this log"⟩
    else
      let new_comment : LogComment :=
        { id := db.nextId, mentorship_log_id := log_id,
          user_id := current_user.id, comment_text := comment_text,
          is_specialist_comment := acc.2 || payload_is_specialist,
          created_at := now }
      .ok ({ db with logComments := db.logComments ++ [new_comment],
                     nextId := db.nextId + 1 }, new_comment)

/-! ## `routers/notifications.py` -/

/-- `mark_notifications_read`: match the requested ids against both
notification tables, scoped to the authenticated recipient, with NO filter
on `is_read` — matched rows (already read or not) get `is_read = True` and
`read_at = datetime.utcnow()`; 404 when nothing matched. -/
def mark_notifications_read (notification_ids : List Nat) (current_user : User)
    (db : DB) (now : Nat) : Except ApiError DB :=
  let unified_matched := db.notifications.filter (fun n =>
    notification_ids.contains n.id && decide (n.user_id = current_user.id))
  let specialist_matched := db.specialistNotifs.filter (fun n =>
    notification_ids.contains n.id && decide (n.specialist_id = current_user.id))
  let marked_count := unified_matched.length + specialist_matched.length
  if marked_count = 0 then
    .error ⟨404, "No notifications found with the provided IDs"⟩
  else
    .ok { db with
      notifications := db.notifications.map (fun n =>
        if notification_ids.contains n.id && decide (n.user_id = current_user.id) then
          { n with is_read := true, read_at := some now }
        else n),
      specialistNotifs := db.specialistNotifs.map (fun n =>
        if notification_ids.contains n.id && decide (n.specialist_id = current_user.id) then
          { n with is_read := true, read_at := some now }
        else n) }

/-- `mark_all_notifications_read`: both tables are filtered to the
recipient's UNREAD rows only; those get `is_read`/`read_at` set.  Returns
the new store and the reported count. -/
def mark_all_notifications_read (current_user : User) (db : DB) (now : Nat) :
    DB × Nat :=
  let unified_unread := db.notifications.filter (fun n =>
    decide (n.user_id = current_user.id) && !n.is_read)
  let specialist_unread := db.specialistNotifs.filter (fun n =>
    decide (n.specialist_id = current_user.id) && !n.is_read)
  ({ db with
      notifications := db.notifications.map (fun n =>
        if decide (n.user_id = current_user.id) && !n.is_read then
          { n with is_read := true, read_at := some now }
        else n),
      specialistNotifs := db.specialistNotifs.map (fun n =>
        if decide (n.specialist_id = current_user.id) && !n.is_read then
          { n with is_read := true, read_at := some now }
        else n) },
    unified_unread.length + specialist_unread.length)

/-! ## `routers/follow_ups.py` -/

/-- `get_follow_up`: resolve by id, 404 when missing, and return the row.
The authenticated caller (`_current_user`) is never consulted — no
visibility predicate is applied. -/
def get_follow_up (follow_up_id : Nat) (_current_user : User) (db : DB) :
    Except ApiError FollowUp :=
  match db.followUps.find? (fun f => decide (f.id = follow_up_id)) with
  | none => .error ⟨404, "Follow-up not found"⟩
  | some follow_up => .ok follow_up

/-- `list_follow_ups` with all optional query filters at their defaults
(none) and pagination wide open: mentors get only follow-ups joined to a
log they own or assigned to them; other roles get every row. -/
def list_follow_ups (current_user : User) (db : DB) : List FollowUp :=
  if current_user.role = UserRole.mentor then
    db.followUps.filter (fun f =>
      db.logs.any (fun l =>
        decide (l.id = f.mentorship_log_id) &&
          (decide (l.mentor_id = current_user.id) ||
            decide (f.assigned_to = some current_user.id))))
  else
    db.followUps

/-- An empty store (id allocator started at 100 so fixture row ids and
allocated ids stay visually distinct). -/
def DB.empty : DB :=
  { users := [], facilities := [], logs := [], skillsTransfers := [],
    followUps := [], attachments := [], logComments := [],
    userSpecializations := [], specialistNotifs := [], notifications := [],
    nextId := 100 }

/-! ## Concrete fixtures used by counterexamples and witnesses -/

/-- C1 fixture: the mentor who owns the log. -/
def c1_mentor : User := ⟨1, "M1", .mentor, none, true⟩

/-- C1 fixture: a supervisor who is neither an admin nor the log's owner. -/
def c1_supervisor : User := ⟨2, "Sup", .supervisor, none, true⟩

/-- C1 fixture: a submitted log owned by user 1. -/
def c1_log : MentorshipLog := ⟨10, 1, 1, .submitted, 0, [], "", some 5, none, none, none, none⟩

/-- C1 fixture store. -/
def c1_db : DB := { DB.empty with users := [c1_mentor, c1_supervisor], logs := [c1_log] }

/-- C2 fixture: the mentor submitting their own log. -/
def c2_mentor : User := ⟨1, "M", .mentor, none, true⟩

/-- C2 fixture: a draft log with thematic areas A then B. -/
def c2_log : MentorshipLog := ⟨10, 1, 1, .draft, 0, ["A", "B"], "", none, none, none, none, none⟩

/-- C2 fixture store: specialist 2 covers area A (fresh candidate),
specialist 3 covers area B but already holds the (10, 3, B) notification
row, so the B candidate violates `uq_specialist_notification`. -/
def c2_db : DB :=
  { DB.empty with
    users := [c2_mentor, ⟨2, "S2", .mentor, none, true⟩, ⟨3, "S3", .mentor, none, true⟩],
    logs := [c2_log],
    userSpecializations := [⟨2, "A"⟩, ⟨3, "B"⟩],
    specialistNotifs := [⟨50, 10, 3, "B", false, 1, none⟩] }

/-- C2 fixture store without the pre-existing duplicate row. -/
def c2_db0 : DB := { c2_db with specialistNotifs := [] }

/-- C3 fixture: the supervisor the log's mentor actually reports to. -/
def c3_assigned_sup : User := ⟨9, "AssignedSup", .supervisor, none, true⟩

/-- C3 fixture: the mentor owning the logs, reporting to user 9. -/
def c3_mentor : User := ⟨1, "M3", .mentor, some 9, true⟩

/-- C3 fixture: a supervisor who is NOT the mentor's assigned supervisor. -/
def c3_supervisor : User := ⟨5, "Sup5", .supervisor, none, true⟩

/-- C3 fixture: a plain user holding specialization X. -/
def c3_specialist : User := ⟨6, "Spec6", .mentor, none, true⟩

/-- C3 fixture: a submitted log with thematic area X. -/
def c3_log : MentorshipLog := ⟨20, 1, 1, .submitted, 0, ["X"], "", some 2, none, none, none, none⟩

/-- C3 fixture: a draft log with thematic area X. -/
def c3_draft_log : MentorshipLog := ⟨21, 1, 1, .draft, 0, ["X"], "", none, none, none, none, none⟩

/-- C3 fixture store. -/
def c3_db : DB :=
  { DB.empty with
    users := [c3_mentor, c3_supervisor, c3_specialist, c3_assigned_sup],
    logs := [c3_log, c3_draft_log],
    userSpecializations := [⟨6, "X"⟩] }

/-- C4 fixture: a plain mentor-role user with specialization X who does
not own the draft log. -/
def c4_user : User := ⟨6, "Spec4", .mentor, none, true⟩

/-- C4 fixture: a draft log with thematic area X owned by user 1. -/
def c4_log : MentorshipLog := ⟨22, 1, 1, .draft, 0, ["X"], "", none, none, none, none, none⟩

/-- C4 fixture store: the viewer's specialization overlaps the draft
log's thematic areas. -/
def c4_db : DB :=
  { DB.empty with
    users := [⟨1, "M4", .mentor, none, true⟩, c4_user],
    logs := [c4_log],
    userSpecializations := [⟨6, "X"⟩] }

/-- C5 fixture: an admin approver. -/
def c5_admin : User := ⟨7, "Adm", .admin, none, true⟩

/-- C5 fixture: the mentor owning the submitted log. -/
def c5_mentor : User := ⟨1, "M5", .mentor, some 9, true⟩

/-- C5 fixture: a submitted log owned by user 1. -/
def c5_log : MentorshipLog := ⟨30, 2, 1, .submitted, 3, [], "", some 4, none, none, none, none⟩

/-- C5 fixture store. -/
def c5_db : DB := { DB.empty with users := [c5_mentor, c5_admin], logs := [c5_log] }

/-- C6 fixture: the mentor owning both logs, reporting to user 2. -/
def c6_mentor : User := ⟨1, "M6", .mentor, some 2, true⟩

/-- C6 fixture: the mentor's supervisor. -/
def c6_sup : User := ⟨2, "S6", .supervisor, none, true⟩

/-- C6 fixture: an admin. -/
def c6_admin : User := ⟨3, "A6", .admin, none, true⟩

/-- C6 fixture: a draft log. -/
def c6_draft : MentorshipLog := ⟨40, 1, 1, .draft, 0, [], "", none, none, none, none, none⟩

/-- C6 fixture: a submitted log. -/
def c6_submitted : MentorshipLog := ⟨41, 1, 1, .submitted, 0, [], "", some 1, none, none, none, none⟩

/-- C6 fixture store. -/
def c6_db : DB :=
  { DB.empty with users := [c6_mentor, c6_sup, c6_admin], logs := [c6_draft, c6_submitted] }

/-- C7 fixture: the notification's recipient. -/
def c7_user : User := ⟨1, "U7", .mentor, none, true⟩

/-- C7 fixture: a notification already marked read at time 100. -/
def c7_notif : Notification := ⟨5, 1, .approval, "t", "m", none, true, 50, some 100⟩

/-- C7 fixture store. -/
def c7_db : DB := { DB.empty with users := [c7_user], notifications := [c7_notif] }

/-- C7 fixture: the store after re-marking notification 5 at time 200 —
`read_at` has been overwritten with the new clock value. -/
def c7_db_after : DB :=
  { c7_db with notifications := [{ c7_notif with read_at := some 200 }] }

/-- C8 fixture: the mentor who creates and edits the log. -/
def c8_user : User := ⟨1, "M8", .mentor, none, true⟩

/-- C8 fixture: a create payload carrying a nested FollowUp list of
length 2 (and no skills transfers). -/
def c8_payload : MentorshipLogCreate :=
  ⟨2, 0, [], "",
   [],
   [⟨"a1", none, none, none, none, none, none⟩,
    ⟨"a2", none, none, none, none, none, none⟩]⟩

/-- C8 fixture: the store after the create (log id 100, two follow-ups). -/
def c8_db1 : DB := (create_mentorship_log c8_payload c8_user DB.empty).1

/-- C8 fixture: the created log row. -/
def c8_log : MentorshipLog := (create_mentorship_log c8_payload c8_user DB.empty).2

/-- C8 fixture: an update payload supplying a new FollowUp list of
length 1 and omitting every other field. -/
def c8_upd : MentorshipLogUpdate :=
  ⟨none, none, none, none, none,
   some [⟨"b1", none, none, none, none, none, none⟩]⟩

/-- C8 fixture: the store after the update. -/
def c8_db2 : DB :=
  match update_mentorship_log 100 c8_upd c8_user c8_db1 with
  | .ok p => p.1
  | .error _ => DB.empty

/-- C8 fixture: the log row returned by the update. -/
def c8_log2 : MentorshipLog :=
  match update_mentorship_log 100 c8_upd c8_user c8_db1 with
  | .ok p => p.2
  | .error _ => c8_log

/-- C9 fixture: a mentor-role user with no relation to the follow-up:
not the parent log's mentor, not the assignee. -/
def c9_user : User := ⟨8, "U9", .mentor, none, true⟩

/-- C9 fixture: a follow-up belonging to log 30 (owned by user 1),
assigned to nobody. -/
def c9_fu : FollowUp := ⟨60, 30, "act", none, none, none, none, none, none, .pending, none⟩

/-- C9 fixture store. -/
def c9_db : DB :=
  { DB.empty with
    users := [⟨1, "M9", .mentor, none, true⟩, c9_user],
    logs := [⟨30, 1, 1, .draft, 0, [], "", none, none, none, none, none⟩],
    followUps := [c9_fu] }

/-! ## Helper lemmas -/

theorem except_isOk_ok {ε α : Type} (a : α) : (Except.ok a : Except ε α).isOk = true := rfl

theorem except_isOk_error {ε α : Type} (e : ε) : (Except.error e : Except ε α).isOk = false := rfl

/-! ## Claims -/

/-- C1 counterexample: a supervisor (not an admin, not the owning mentor)
successfully deletes a log whose status is `submitted` — the handler's
permission branch only constrains actors with role `mentor`, so the claim
"deleting a submitted log is permitted for admins only, and never for a
supervisor" is false on the code. -/
theorem c1_delete_supervisor_counterexample :
    (delete_mentorship_log 10 c1_supervisor c1_db).isOk = true ∧
    c1_supervisor.role = UserRole.supervisor ∧
    c1_log.mentor_id ≠ c1_supervisor.id ∧
    c1_log.status = LogStatus.submitted ∧
    find_log c1_db 10 = some c1_log := by decide

/-- C1 (amended): for an existing log, delete succeeds for every actor
whose role is not `mentor` (admins AND supervisors, unconditionally), and
for a mentor exactly when they own the log and it is still a draft. -/
theorem c1_delete_permission (current_user : User) (db : DB) (log_id : Nat)
    (log : MentorshipLog) (hfind : find_log db log_id = some log) :
    (current_user.role = UserRole.mentor →
      ((delete_mentorship_log log_id current_user db).isOk = true ↔
        (log.mentor_id = current_user.id ∧ log.status = LogStatus.draft))) ∧
    (current_user.role ≠ UserRole.mentor →
      (delete_mentorship_log log_id current_user db).isOk = true) := by
  simp only [delete_mentorship_log, hfind]
  constructor
  · intro hrole
    split_ifs with h1 h2
    · simp only [except_isOk_error, Bool.false_eq_true, false_iff, not_and]
      intro hc _
      exact h1.2 hc
    · simp only [except_isOk_error, Bool.false_eq_true, false_iff, not_and]
      intro _ hc
      exact h2.2 hc
    · simp only [except_isOk_ok, true_iff]
      constructor
      · by_contra hne
        exact h1 ⟨hrole, hne⟩
      · by_contra hne
        exact h2 ⟨hrole, hne⟩
  · intro hrole
    split_ifs with h1 h2
    · exact absurd h1.1 hrole
    · exact absurd h2.1 hrole
    · exact rfl

/-- C1 witness: the amended theorem applied to the fixture — the
supervisor, whose role is not `mentor`, deletes the submitted log. -/
theorem c1_delete_permission_witness :
    (delete_mentorship_log 10 c1_supervisor c1_db).isOk = true :=
  (c1_delete_permission c1_supervisor c1_db 10 c1_log (by decide)).2 (by decide)

/-- C2: the fan-out's duplicate handling uses `session.rollback()`, which
resets the whole open transaction, not a per-candidate savepoint.  On the
fixture, the candidates are specialist 2 for area A (fresh — its
notification row and the status update are flushed) and then specialist 3
for area B (a duplicate of the pre-existing (10, 3, B) row).  The
duplicate's rollback discards the earlier candidate's flushed notification
AND the log's transition to `submitted`: the handler reports success with
the store completely unchanged, the log still `draft`, and no (10, 2, A)
row.  For contrast, the same submit on the store without the pre-existing
row commits the transition and both notifications. -/
theorem c2_fanout_rollback_bug :
    submit_mentorship_log 10 c2_mentor c2_db 7 = .ok (c2_db, c2_log) ∧
    c2_log.status = LogStatus.draft ∧
    fanout_candidates c2_db c2_mentor c2_log = [(2, "A"), (3, "B")] ∧
    has_notif_triple c2_db 10 3 "B" = true ∧
    has_notif_triple c2_db 10 2 "A" = false ∧
    (submit_mentorship_log 10 c2_mentor c2_db0 7).toOption.map
        (fun p => ((find_log p.1 10).map (fun l => l.status),
          p.1.specialistNotifs.map
            (fun n => (n.mentorship_log_id, n.specialist_id, n.thematic_area)))) =
      some (some LogStatus.submitted, [(10, 2, "A"), (10, 3, "B")]) := by decide

theorem can_view_as_specialist_iff (log : MentorshipLog) (u : User) (db : DB) :
    can_view_as_specialist log u db = true ↔
      ∃ a ∈ log.thematic_areas, a ∈ user_spec_areas db u.id := by
  unfold can_view_as_specialist
  split_ifs with h
  · simp only [Bool.false_eq_true, false_iff]
    rintro ⟨a, ha, -⟩
    rw [List.isEmpty_iff] at h
    simp [h] at ha
  · simp only [List.any_eq_true, decide_eq_true_eq]
    constructor
    · rintro ⟨a, ha, hc⟩
      exact ⟨a, ha, List.elem_iff.mp hc⟩
    · rintro ⟨a, ha, hm⟩
      exact ⟨a, ha, List.elem_iff.mpr hm⟩

theorem comment_access_fst (log : MentorshipLog) (u : User) (db : DB) (mentor : User)
    (hmentor : find_user db log.mentor_id = some mentor) :
    (comment_access log u db).1 = true ↔
      (log.mentor_id = u.id ∨ u.role = UserRole.admin ∨
        (u.role = UserRole.supervisor ∧ mentor.supervisor_id = some u.id) ∨
        can_view_as_specialist log u db = true) := by
  simp only [comment_access, hmentor]
  split_ifs <;> simp_all

theorem comment_access_snd (log : MentorshipLog) (u : User) (db : DB) (mentor : User)
    (hmentor : find_user db log.mentor_id = some mentor) :
    (comment_access log u db).2 = true ↔
      (¬(log.mentor_id = u.id ∨ u.role = UserRole.admin ∨
          (u.role = UserRole.supervisor ∧ mentor.supervisor_id = some u.id)) ∧
        can_view_as_specialist log u db = true) := by
  simp only [comment_access, hmentor]
  split_ifs <;> simp_all

/-- C3 counterexample, refuting "comment access is granted exactly when
`can_view_log` grants view access" in both directions on the fixture:
(a) a supervisor who is not the mentor's assigned supervisor can view the
submitted log (`can_view_log` grants every supervisor) yet is denied
comment access; (b) a specialization-overlap user is granted comment
access on a DRAFT log, which `can_view_log` denies (overlap counts only
for submitted/approved). -/
theorem c3_comment_access_counterexample :
    c3_supervisor.role = UserRole.supervisor ∧
    (get_mentorship_log 20 c3_supervisor c3_db).isOk = true ∧
    get_log_comments 20 c3_supervisor c3_db =
      .error ⟨403, "You don\x27t have access to view comments on this log"⟩ ∧
    (create_log_comment 20 "hi" false c3_supervisor c3_db 9).isOk = false ∧
    c3_draft_log.status = LogStatus.draft ∧
    (get_mentorship_log 21 c3_specialist c3_db).isOk = false ∧
    (get_log_comments 21 c3_specialist c3_db).isOk = true ∧
    (create_log_comment 21 "hi" false c3_specialist c3_db 9).isOk = true := by decide

/-- C3 (amended): for an actor A and existing log L whose mentor record
resolves, comment access (viewing and creating) is granted exactly when
A is L's mentor, or A is an admin, or A is a supervisor to whom L's mentor
reports, or A's specialization set intersects L.thematic_areas (with no
condition on L's status); and a created comment is flagged as a specialist
comment whenever the author qualifies only via the specialization-overlap
branch. -/
theorem c3_comment_access (current_user mentor : User) (db : DB) (log_id : Nat)
    (log : MentorshipLog) (comment_text : String) (payload_flag : Bool) (now : Nat)
    (hfind : find_log db log_id = some log)
    (hmentor : find_user db log.mentor_id = some mentor) :
    ((get_log_comments log_id current_user db).isOk = true ↔
      (log.mentor_id = current_user.id ∨ current_user.role = UserRole.admin ∨
        (current_user.role = UserRole.supervisor ∧
          mentor.supervisor_id = some current_user.id) ∨
        ∃ a ∈ log.thematic_areas, a ∈ user_spec_areas db current_user.id)) ∧
    ((create_log_comment log_id comment_text payload_flag current_user db now).isOk = true ↔
      (log.mentor_id = current_user.id ∨ current_user.role = UserRole.admin ∨
        (current_user.role = UserRole.supervisor ∧
          mentor.supervisor_id = some current_user.id) ∨
        ∃ a ∈ log.thematic_areas, a ∈ user_spec_areas db current_user.id)) ∧
    (∀ db' c,
      create_log_comment log_id comment_text payload_flag current_user db now = .ok (db', c) →
      ¬(log.mentor_id = current_user.id ∨ current_user.role = UserRole.admin ∨
          (current_user.role = UserRole.supervisor ∧
            mentor.supervisor_id = some current_user.id)) →
      can_view_as_specialist log current_user db = true →
      c.is_specialist_comment = true) := by
  have hfst := comment_access_fst log current_user db mentor hmentor
  have hsnd := comment_access_snd log current_user db mentor hmentor
  have hspec := can_view_as_specialist_iff log current_user db
  refine ⟨?_, ?_, ?_⟩
  · simp only [get_log_comments, hfind]
    split_ifs with h
    · simp only [except_isOk_ok, true_iff]
      rw [hfst, hspec] at h
      tauto
    · simp only [except_isOk_error, Bool.false_eq_true, false_iff]
      rw [hfst, hspec] at h
      tauto
  · simp only [create_log_comment, hfind]
    split_ifs with h
    · simp only [except_isOk_error, Bool.false_eq_true, false_iff]
      rw [Ne, hfst, hspec] at h
      tauto
    · simp only [except_isOk_ok, true_iff]
      rw [Ne, hfst, hspec] at h
      tauto
  · intro db' c hok hnotbase hoverlap
    have h2 : (comment_access log current_user db).2 = true := by
      rw [hsnd]
      exact ⟨hnotbase, hoverlap⟩
    have h1 : ¬((comment_access log current_user db).1 ≠ true) := by
      intro hne
      apply hne
      rw [hfst]
      right; right; right; exact hoverlap
    simp only [create_log_comment, hfind] at hok
    rw [if_neg h1] at hok
    have hpair := Except.ok.inj hok
    simp only [Prod.mk.injEq] at hpair
    rw [← hpair.2]
    simp [h2]

/-- C4: for an existing draft log, an actor who is not the owner and is
neither supervisor nor admin is denied by the single-log read (403) and
the log fails the visible-logs filter; no hypothesis constrains the
actor's specializations, so this holds even with a thematic overlap. -/
theorem c4_draft_not_specialist_visible (current_user : User) (db : DB)
    (log : MentorshipLog)
    (hstatus : log.status = LogStatus.draft)
    (hnotown : log.mentor_id ≠ current_user.id)
    (hsup : current_user.role ≠ UserRole.supervisor)
    (hadm : current_user.role ≠ UserRole.admin)
    (hfind : find_log db log.id = some log) :
    get_mentorship_log log.id current_user db =
      .error ⟨403, "You don\x27t have permission to view this log"⟩ ∧
    get_visible_logs_query current_user db log = false := by
  have hrole : current_user.role = UserRole.mentor := by
    cases h : current_user.role
    · rfl
    · exact absurd h hsup
    · exact absurd h hadm
  constructor
  · simp only [get_mentorship_log, hfind]
    split_ifs with h1 h2 h3
    · rcases h1 with h1 | h1
      · exact absurd h1 hadm
      · exact absurd h1 hsup
    · exact absurd h2.2 (fun he => hnotown he)
    · rcases h3.1 with hs | hs
      · rw [hstatus] at hs
        cases hs
      · rw [hstatus] at hs
        cases hs
    · rfl
  · simp only [get_visible_logs_query]
    rw [if_neg hadm]
    rw [hstatus, hrole]
    simp [hnotown]

/-- C4 witness: the theorem applied to the fixture, where the viewer's
specialization X overlaps the draft log's thematic areas. -/
theorem c4_draft_not_specialist_visible_witness :
    get_mentorship_log 22 c4_user c4_db =
      .error ⟨403, "You don\x27t have permission to view this log"⟩ ∧
    get_visible_logs_query c4_user c4_db c4_log = false :=
  c4_draft_not_specialist_visible c4_user c4_db c4_log (by decide) (by decide)
    (by decide) (by decide) (by decide)

theorem can_approve_log_iff (log : MentorshipLog) (u : User) (db : DB) (mentor : User)
    (hmentor : find_user db log.mentor_id = some mentor) :
    can_approve_log log u db = true ↔
      (u.role = UserRole.admin ∨
        (u.role = UserRole.supervisor ∧ mentor.supervisor_id = some u.id)) := by
  simp only [can_approve_log, hmentor]
  split_ifs with h1 h2 <;> simp_all

/-- C5: for an existing submitted log whose mentor record resolves, the
approve action succeeds exactly for an admin, or a supervisor the log's
mentor reports to (a mentor-role caller is rejected by the role gate); on
success the returned row is `approved` with `approved_at = now` and
`approved_by` the approver, the stored row is replaced accordingly, and
exactly one approval notification addressed to the mentor is created —
none when the approver is the mentor. -/
theorem c5_approve (current_user mentor : User) (db : DB) (log_id : Nat)
    (log : MentorshipLog) (now : Nat)
    (hfind : find_log db log_id = some log)
    (hstatus : log.status = LogStatus.submitted)
    (hmentor : find_user db log.mentor_id = some mentor) :
    ((approve_mentorship_log log_id current_user db now).isOk = true ↔
      (current_user.role = UserRole.admin ∨
        (current_user.role = UserRole.supervisor ∧
          mentor.supervisor_id = some current_user.id))) ∧
    (∀ db' log2, approve_mentorship_log log_id current_user db now = .ok (db', log2) →
      log2.status = LogStatus.approved ∧
      log2.approved_at = some now ∧
      log2.approved_by = some current_user.id ∧
      db'.logs = db.logs.map (fun l => if l.id = log.id then log2 else l) ∧
      (log.mentor_id ≠ current_user.id →
        ∃ n, db'.notifications = db.notifications ++ [n] ∧
          n.user_id = log.mentor_id ∧
          n.notification_type = NotificationType.approval) ∧
      (log.mentor_id = current_user.id → db'.notifications = db.notifications)) := by
  have hcan := can_approve_log_iff log current_user db mentor hmentor
  constructor
  · simp only [approve_mentorship_log, hfind]
    by_cases hrole : current_user.role = UserRole.supervisor ∨ current_user.role = UserRole.admin
    · rw [if_neg (not_not_intro hrole)]
      by_cases hc : can_approve_log log current_user db = true
      · rw [if_neg (fun h => h hc), if_neg (fun h => h hstatus)]
        simp only [except_isOk_ok, true_iff]
        exact hcan.mp hc
      · rw [if_pos hc]
        simp only [except_isOk_error, Bool.false_eq_true, false_iff]
        intro hr
        exact hc (hcan.mpr hr)
    · rw [if_pos hrole]
      simp only [except_isOk_error, Bool.false_eq_true, false_iff]
      rintro (ha | ⟨hsu, -⟩)
      · exact hrole (Or.inr ha)
      · exact hrole (Or.inl hsu)
  · intro db' log2 hok
    simp only [approve_mentorship_log, hfind] at hok
    by_cases hrole : current_user.role = UserRole.supervisor ∨ current_user.role = UserRole.admin
    · rw [if_neg (not_not_intro hrole)] at hok
      by_cases hc : can_approve_log log current_user db = true
      · rw [if_neg (fun h => h hc), if_neg (fun h => h hstatus)] at hok
        have hpair := Except.ok.inj hok
        simp only [Prod.mk.injEq] at hpair
        obtain ⟨hdb, hlog⟩ := hpair
        subst hdb
        subst hlog
        refine ⟨rfl, rfl, rfl, ?_, ?_, ?_⟩
        · split_ifs with hm <;> rfl
        · intro hne
          rw [if_pos hne]
          exact ⟨_, rfl, rfl, rfl⟩
        · intro heq
          rw [if_neg (fun hne => hne heq)]
      · rw [if_pos hc] at hok
        cases hok
    · rw [if_pos hrole] at hok
      cases hok

/-- C5 witness: the admin approves the fixture's submitted log. -/
theorem c5_approve_witness :
    (approve_mentorship_log 30 c5_admin c5_db 9).isOk = true :=
  (c5_approve c5_admin c5_mentor c5_db 30 c5_log 9 (by decide) (by decide)
    (by decide)).1.mpr (Or.inl (by decide))

/-- C3 witness: the amended theorem applied to the fixture — the
non-assigned supervisor, with no specialization overlap, is denied. -/
theorem c3_comment_access_witness :
    ¬((get_log_comments 20 c3_supervisor c3_db).isOk = true) :=
  fun h =>
    by
      have := ((c3_comment_access c3_supervisor c3_mentor c3_db 20 c3_log "hi" false 9
        (by decide) (by decide)).1.mp h)
      revert this
      decide

/-- C6: invalid transitions fail with the invalid-state error (HTTP 400
naming the current status and the allowed source status — the spec's
`Conflict`), and the empty-reason reject fails with the reason-required
error (the spec's `ValidationError`); each raise happens before any store
mutation, so the returned `error` carries no new store and the log is
unchanged: (a) approving a draft log (authorized approver); (b) submitting
a submitted log (authorized submitter); (c) rejecting a submitted log with
an all-whitespace reason (supervisor/admin).  None is a silent no-op: each
returns a definite error. -/
theorem c6_invalid_transitions (current_user : User) (db : DB) (log_id : Nat)
    (log : MentorshipLog) (now : Nat) (reason : String)
    (hfind : find_log db log_id = some log) :
    (log.status = LogStatus.draft →
      (current_user.role = UserRole.supervisor ∨ current_user.role = UserRole.admin) →
      can_approve_log log current_user db = true →
      approve_mentorship_log log_id current_user db now =
        .error ⟨400, "Cannot approve draft log. Only submitted logs can be approved."⟩) ∧
    (log.status = LogStatus.submitted →
      (current_user.role = UserRole.mentor → log.mentor_id = current_user.id) →
      submit_mentorship_log log_id current_user db now =
        .error ⟨400, "Cannot submit submitted log. Only draft logs can be submitted."⟩) ∧
    (log.status = LogStatus.submitted →
      (current_user.role = UserRole.supervisor ∨ current_user.role = UserRole.admin) →
      blank_string reason = true →
      reject_mentorship_log log_id reason current_user db now =
        .error ⟨400, "Rejection reason is required"⟩) := by
  refine ⟨?_, ?_, ?_⟩
  · intro hd hrole hcan
    have hne : log.status ≠ LogStatus.submitted := by
      rw [hd]
      exact fun h => by cases h
    simp only [approve_mentorship_log, hfind]
    rw [if_neg (not_not_intro hrole), if_neg (fun h => h hcan), if_pos hne, hd]
    decide
  · intro hs hown
    have hne : log.status ≠ LogStatus.draft := by
      rw [hs]
      exact fun h => by cases h
    simp only [submit_mentorship_log, hfind]
    rw [if_neg (fun h => h.2 (hown h.1)), if_pos hne, hs]
    decide
  · intro hs hrole hblank
    simp only [reject_mentorship_log, hfind]
    rw [if_neg (not_not_intro hrole), if_neg (fun h => h hs), if_pos hblank]

/-- C6 witness: the three cases on the fixture — the admin approving the
draft log, the owning mentor re-submitting the submitted log, and the
supervisor rejecting with a whitespace-only reason. -/
theorem c6_invalid_transitions_witness :
    approve_mentorship_log 40 c6_admin c6_db 5 =
      .error ⟨400, "Cannot approve draft log. Only submitted logs can be approved."⟩ ∧
    submit_mentorship_log 41 c6_mentor c6_db 5 =
      .error ⟨400, "Cannot submit submitted log. Only draft logs can be submitted."⟩ ∧
    reject_mentorship_log 41 " " c6_sup c6_db 5 =
      .error ⟨400, "Rejection reason is required"⟩ :=
  ⟨(c6_invalid_transitions c6_admin c6_db 40 c6_draft 5 " " (by decide)).1
      (by decide) (by decide) (by decide),
   (c6_invalid_transitions c6_mentor c6_db 41 c6_submitted 5 " " (by decide)).2.1
      (by decide) (fun _ => by decide),
   (c6_invalid_transitions c6_sup c6_db 41 c6_submitted 5 " " (by decide)).2.2
      (by decide) (by decide) (by decide)⟩

/-- C7 counterexample: the bulk-by-id mark (`mark_notifications_read`)
filters only on id and recipient — not on `is_read` — so re-marking the
already-read notification 5 at time 200 succeeds but OVERWRITES `read_at`
from `some 100` to `some 200`; the claim says `read_at` is left unchanged
in effect. -/
theorem c7_mark_read_counterexample :
    c7_notif.is_read = true ∧
    c7_notif.read_at = some 100 ∧
    mark_notifications_read [5] c7_user c7_db 200 = .ok c7_db_after ∧
    c7_db_after.notifications.map (fun n => n.read_at) = [some 200] := by decide

/-- C7 (amended): re-marking an already-read notification succeeds without
error; under the bulk-by-id operation the row is re-matched, `is_read`
stays true, but `read_at` is overwritten with the current time; under
mark-all-for-recipient the already-read row is skipped entirely, so it is
unchanged (`read_at` kept). -/
theorem c7_mark_read_idempotent (current_user : User) (db : DB) (now : Nat)
    (n : Notification)
    (hmem : n ∈ db.notifications)
    (howner : n.user_id = current_user.id)
    (hread : n.is_read = true) :
    (mark_notifications_read [n.id] current_user db now).isOk = true ∧
    (∀ db2, mark_notifications_read [n.id] current_user db now = .ok db2 →
      { n with is_read := true, read_at := some now } ∈ db2.notifications) ∧
    n ∈ (mark_all_notifications_read current_user db now).1.notifications := by
  have hpred : ([n.id].contains n.id && decide (n.user_id = current_user.id)) = true := by
    rw [howner]
    simp [List.contains]
  have hmemf : n ∈ db.notifications.filter
      (fun m => [n.id].contains m.id && decide (m.user_id = current_user.id)) :=
    List.mem_filter.mpr ⟨hmem, hpred⟩
  have hne := List.ne_nil_of_mem hmemf
  refine ⟨?_, ?_, ?_⟩
  · simp only [mark_notifications_read]
    split_ifs with h0
    · exfalso
      have h1 : (db.notifications.filter
          (fun m => [n.id].contains m.id && decide (m.user_id = current_user.id))).length = 0 := by
        omega
      exact hne (List.eq_nil_of_length_eq_zero h1)
    · rfl
  · intro db2 hok
    simp only [mark_notifications_read] at hok
    split_ifs at hok with h0
    have hdb := Except.ok.inj hok
    subst hdb
    refine List.mem_map.mpr ⟨n, hmem, ?_⟩
    simp [howner]
  · have hcond : (decide (n.user_id = current_user.id) && !n.is_read) = false := by
      rw [hread]
      simp
    refine List.mem_map.mpr ⟨n, hmem, ?_⟩
    simp [hread]

/-- C7 witness: the amended theorem applied to the fixture — re-marking
succeeds, and mark-all leaves the already-read row untouched. -/
theorem c7_mark_read_idempotent_witness :
    (mark_notifications_read [5] c7_user c7_db 200).isOk = true ∧
    c7_notif ∈ (mark_all_notifications_read c7_user c7_db 200).1.notifications :=
  ⟨(c7_mark_read_idempotent c7_user c7_db 200 c7_notif (by decide) (by decide) (by decide)).1,
   (c7_mark_read_idempotent c7_user c7_db 200 c7_notif (by decide) (by decide) (by decide)).2.2⟩

theorem insert_follow_ups_logs (db : DB) (lid : Nat) (fus : List FollowUpNested) :
    (insert_follow_ups db lid fus).logs = db.logs := by
  induction fus generalizing db with
  | nil => rfl
  | cons fu rest ih => exact ih _

theorem insert_follow_ups_skillsTransfers (db : DB) (lid : Nat) (fus : List FollowUpNested) :
    (insert_follow_ups db lid fus).skillsTransfers = db.skillsTransfers := by
  induction fus generalizing db with
  | nil => rfl
  | cons fu rest ih => exact ih _

theorem insert_skills_transfers_logs (db : DB) (lid : Nat) (sts : List SkillsTransferCreate) :
    (insert_skills_transfers db lid sts).logs = db.logs := by
  induction sts generalizing db with
  | nil => rfl
  | cons st rest ih => exact ih _

theorem insert_skills_transfers_followUps (db : DB) (lid : Nat) (sts : List SkillsTransferCreate) :
    (insert_skills_transfers db lid sts).followUps = db.followUps := by
  induction sts generalizing db with
  | nil => rfl
  | cons st rest ih => exact ih _

theorem insert_follow_ups_count (db : DB) (lid : Nat) (fus : List FollowUpNested) :
    ((insert_follow_ups db lid fus).followUps.filter
      (fun f => decide (f.mentorship_log_id = lid))).length =
    (db.followUps.filter (fun f => decide (f.mentorship_log_id = lid))).length + fus.length := by
  induction fus generalizing db with
  | nil => rfl
  | cons fu rest ih =>
    rw [show insert_follow_ups db lid (fu :: rest) =
          insert_follow_ups
            { db with
              followUps := db.followUps ++ [fu.toRow db.nextId lid],
              nextId := db.nextId + 1 }
            lid rest from rfl, ih]
    simp [List.filter_append, FollowUpNested.toRow]
    omega

theorem insert_skills_transfers_count (db : DB) (lid : Nat) (sts : List SkillsTransferCreate) :
    ((insert_skills_transfers db lid sts).skillsTransfers.filter
      (fun st => decide (st.mentorship_log_id = lid))).length =
    (db.skillsTransfers.filter (fun st => decide (st.mentorship_log_id = lid))).length +
      sts.length := by
  induction sts generalizing db with
  | nil => rfl
  | cons st rest ih =>
    rw [show insert_skills_transfers db lid (st :: rest) =
          insert_skills_transfers
            { db with
              skillsTransfers := db.skillsTransfers ++
                [{ id := db.nextId, mentorship_log_id := lid, payload := st.payload }],
              nextId := db.nextId + 1 }
            lid rest from rfl, ih]
    simp [List.filter_append]
    omega

theorem filter_eq_after_filter_ne {α : Type} (key : α → Nat) (l : List α) (lid : Nat) :
    (l.filter (fun f => decide (key f ≠ lid))).filter (fun f => decide (key f = lid)) = [] := by
  rw [List.filter_filter]
  apply List.filter_eq_nil_iff.mpr
  intro a ha
  simp only [Bool.and_eq_true, decide_eq_true_eq, not_and]
  intro h
  exact not_not_intro h

theorem insert_follow_ups_count_of_nil (db : DB) (lid : Nat) (fus : List FollowUpNested)
    (h : db.followUps.filter (fun f => decide (f.mentorship_log_id = lid)) = []) :
    ((insert_follow_ups db lid fus).followUps.filter
      (fun f => decide (f.mentorship_log_id = lid))).length = fus.length := by
  rw [insert_follow_ups_count, h]
  simp

theorem insert_skills_transfers_count_of_nil (db : DB) (lid : Nat)
    (sts : List SkillsTransferCreate)
    (h : db.skillsTransfers.filter (fun st => decide (st.mentorship_log_id = lid)) = []) :
    ((insert_skills_transfers db lid sts).skillsTransfers.filter
      (fun st => decide (st.mentorship_log_id = lid))).length = sts.length := by
  rw [insert_skills_transfers_count, h]
  simp

/-- C8: a successful draft edit by the owner fully replaces the nested
children when the corresponding list is supplied — afterwards exactly as
many FollowUp (resp. SkillsTransfer) rows exist for the log as the new
list has entries — and leaves the children untouched when the list is
omitted (`none`). -/
theorem c8_nested_replace (current_user : User) (db : DB) (log_id : Nat)
    (log : MentorshipLog) (log_data : MentorshipLogUpdate)
    (hfind : find_log db log_id = some log)
    (howner : log.mentor_id = current_user.id)
    (hdraft : log.status = LogStatus.draft) :
    (update_mentorship_log log_id log_data current_user db).isOk = true ∧
    (∀ db' l', update_mentorship_log log_id log_data current_user db = .ok (db', l') →
      (∀ fus, log_data.follow_ups = some fus →
        (db'.followUps.filter (fun f => decide (f.mentorship_log_id = log_id))).length =
          fus.length) ∧
      (log_data.follow_ups = none → db'.followUps = db.followUps) ∧
      (∀ sts, log_data.skills_transfers = some sts →
        (db'.skillsTransfers.filter (fun st => decide (st.mentorship_log_id = log_id))).length =
          sts.length) ∧
      (log_data.skills_transfers = none → db'.skillsTransfers = db.skillsTransfers)) := by
  have hfind2 : db.logs.find? (fun l => decide (l.id = log_id)) = some log := hfind
  have hp := List.find?_some hfind2
  simp only [decide_eq_true_eq] at hp
  subst hp
  constructor
  · simp only [update_mentorship_log, hfind]
    rw [if_neg (fun h => h howner), if_neg (fun h => h hdraft)]
    rfl
  · intro db' l' hok
    simp only [update_mentorship_log, hfind] at hok
    rw [if_neg (fun h => h howner), if_neg (fun h => h hdraft)] at hok
    have hpair := Except.ok.inj hok
    simp only [Prod.mk.injEq] at hpair
    obtain ⟨hdb, -⟩ := hpair
    subst hdb
    refine ⟨?_, ?_, ?_, ?_⟩
    · intro fus hfo
      simp only [hfo]
      refine insert_follow_ups_count_of_nil _ _ fus ?_
      dsimp only
      exact filter_eq_after_filter_ne (fun f : FollowUp => f.mentorship_log_id) _ _
    · intro hfo
      simp only [hfo]
      cases hst : log_data.skills_transfers with
      | none => simp only [hst]
      | some sts =>
        simp only [hst]
        rw [insert_skills_transfers_followUps]
    · intro sts hst
      simp only [hst]
      cases hfo : log_data.follow_ups with
      | none =>
        simp only [hfo]
        refine insert_skills_transfers_count_of_nil _ _ sts ?_
        dsimp only
        exact filter_eq_after_filter_ne (fun st : SkillsTransfer => st.mentorship_log_id) _ _
      | some fus =>
        simp only [hfo]
        rw [insert_follow_ups_skillsTransfers]
        refine insert_skills_transfers_count_of_nil _ _ sts ?_
        dsimp only
        exact filter_eq_after_filter_ne (fun st : SkillsTransfer => st.mentorship_log_id) _ _
    · intro hst
      simp only [hst]
      cases hfo : log_data.follow_ups with
      | none => simp only [hfo]
      | some fus =>
        simp only [hfo]
        rw [insert_follow_ups_skillsTransfers]

/-- C8 witness: the round trip of the fixture — create with two nested
follow-ups (store `c8_db1`), update supplying one; afterwards exactly one
FollowUp row exists for log 100. -/
theorem c8_nested_replace_witness :
    (c8_db1.followUps.filter (fun f => decide (f.mentorship_log_id = 100))).length = 2 ∧
    (c8_db2.followUps.filter (fun f => decide (f.mentorship_log_id = 100))).length = 1 :=
  ⟨by decide,
   ((c8_nested_replace c8_user c8_db1 100 c8_log c8_upd (by decide) (by decide)
      (by decide)).2 c8_db2 c8_log2 (by decide)).1
     [⟨"b1", none, none, none, none, none, none⟩] rfl⟩

/-- C9: the single-item follow-up read returns the row for EVERY
authenticated caller — `current_user` is unconstrained and unused, so no
role, ownership or assignment predicate is applied — whereas the list
operation filters a mentor-role caller's results to follow-ups joined to
a log they own or assigned to them. -/
theorem c9_follow_up_read_unscoped (current_user : User) (db : DB) (fid : Nat)
    (f : FollowUp)
    (hfind : db.followUps.find? (fun g => decide (g.id = fid)) = some f) :
    get_follow_up fid current_user db = .ok f ∧
    (current_user.role = UserRole.mentor →
      ∀ g, g ∈ list_follow_ups current_user db ↔
        (g ∈ db.followUps ∧ ∃ l, l ∈ db.logs ∧ l.id = g.mentorship_log_id ∧
          (l.mentor_id = current_user.id ∨ g.assigned_to = some current_user.id))) := by
  constructor
  · simp only [get_follow_up, hfind]
  · intro hrole g
    simp only [list_follow_ups, if_pos hrole]
    rw [List.mem_filter]
    simp only [List.any_eq_true, Bool.and_eq_true, Bool.or_eq_true, decide_eq_true_eq]

/-- C9 witness: a mentor-role user who neither owns follow-up 60's parent
log nor is assigned to it still reads it by id. -/
theorem c9_follow_up_read_unscoped_witness :
    get_follow_up 60 c9_user c9_db = .ok c9_fu :=
  (c9_follow_up_read_unscoped c9_user c9_db 60 c9_fu (by decide)).1

/-- C10: `create_mentorship_log` is total over every authenticated caller
and payload (the payload schema has no `status` or `mentor_id` field), and
the created row always has `status = draft` and `mentor_id` equal to the
caller's id, and is stored. -/
theorem c10_create_draft_owned (log_data : MentorshipLogCreate)
    (current_user : User) (db : DB) :
    (create_mentorship_log log_data current_user db).2.status = LogStatus.draft ∧
    (create_mentorship_log log_data current_user db).2.mentor_id = current_user.id ∧
    (create_mentorship_log log_data current_user db).2 ∈
      (create_mentorship_log log_data current_user db).1.logs := by
  refine ⟨rfl, rfl, ?_⟩
  simp only [create_mentorship_log]
  rw [insert_follow_ups_logs, insert_skills_transfers_logs]
  dsimp only
  exact List.mem_append_right _ (List.mem_singleton_self _)

end DML
